import Mathlib

/-
  Verification development for the daily-company-stream repository.

  The definitions below are shallow embeddings of the repository's
  TypeScript source:
    - the Companies House scraper edge function (full and capped
      versions): paginated fetch loop, 429 retry handling, run-record
      lifecycle, CSV/JSONL export;
    - the search-email edge function: three-tier RocketReach lookup;
    - the dashboard date-of-birth display formatters.

  Wall-clock behaviour (sleeps, rate-limit window timing) is not modelled;
  the seconds an iteration decides to wait are recorded as data so that
  backoff decisions remain provable.  Database and object-storage writes
  are modelled as the records the code builds for them.
-/

set_option maxRecDepth 4000

namespace DailyCompanyStream

/-! ### Company records (CompanySearchResult interface of the scraper) -/

/-- Registered office address as in the scraper's `CompanySearchResult`
    interface; every field is optional in the upstream payload. -/
structure RegisteredOfficeAddress where
  address_line_1 : Option String
  address_line_2 : Option String
  locality : Option String
  postal_code : Option String
  country : Option String
deriving DecidableEq

/-- Company record mirrored from the scraper's `CompanySearchResult`
    interface.  `registered_office_address` is modelled as optional because
    the code accesses it with optional chaining (`?.`). -/
structure CompanySearchResult where
  company_number : String
  company_name : String
  company_status : String
  date_of_creation : String
  registered_office_address : Option RegisteredOfficeAddress
  company_type : Option String
  sic_codes : Option (List String)
deriving DecidableEq

/-! ### CSV generation (scraper, both versions: identical code) -/

/-- Character-level body of `.replace(/"/g, '""')`: every double quote is
    doubled, all other characters pass through. -/
def csvEscapeChars : List Char → List Char
  | [] => []
  | c :: rest =>
    if c = '"' then '"' :: '"' :: csvEscapeChars rest
    else c :: csvEscapeChars rest

/-- String form of `.replace(/"/g, '""')`. -/
def csvEscape (s : String) : String :=
  String.mk (csvEscapeChars s.data)

/-- A quoted CSV text field: `"${(x || '').replace(/"/g, '""')}"`. -/
def csvQuote (s : String) : String :=
  "\"" ++ csvEscape s ++ "\""

/-- The `csvHeaders` array of the scraper. -/
def csvHeaders : List String :=
  ["company_number", "company_name", "company_status", "date_of_creation",
   "company_type", "address_line_1", "address_line_2", "locality",
   "postal_code", "country", "sic_codes"]

/-- Optional-chained address access `company.registered_office_address?.f || ''`. -/
def addrField (c : CompanySearchResult) (f : RegisteredOfficeAddress → Option String) : String :=
  (c.registered_office_address.bind f).getD ""

/-- One CSV row before joining with commas, exactly the array the scraper
    builds in `csvRows` (both versions build the same array). -/
def csvFields (c : CompanySearchResult) : List String :=
  [c.company_number,
   csvQuote c.company_name,
   c.company_status,
   c.date_of_creation,
   c.company_type.getD "",
   csvQuote (addrField c RegisteredOfficeAddress.address_line_1),
   csvQuote (addrField c RegisteredOfficeAddress.address_line_2),
   csvQuote (addrField c RegisteredOfficeAddress.locality),
   addrField c RegisteredOfficeAddress.postal_code,
   addrField c RegisteredOfficeAddress.country,
   csvQuote (String.intercalate "; " (c.sic_codes.getD []))]

/-- A row joined with commas: `[...].join(',')`. -/
def csvLine (c : CompanySearchResult) : String :=
  String.intercalate "," (csvFields c)

/-- The header row: `csvHeaders.join(',')`. -/
def csvHeaderLine : String :=
  String.intercalate "," csvHeaders

/-- The whole CSV artifact: `[csvHeaders.join(','), ...csvRows].join('\n')`. -/
def csvContent (companies : List CompanySearchResult) : String :=
  String.intercalate "\n" (csvHeaderLine :: companies.map csvLine)

/-! ### A standard CSV field parser (spec side, for the round-trip claim).
    This is NOT taken from the repository: it implements "standard CSV
    quoting rules" from the spec, to compare against the writer. -/

/-- Undo quote doubling inside a quoted CSV field; a lone interior double
    quote is malformed. -/
def csvUnescapeChars : List Char → Option (List Char)
  | [] => some []
  | '"' :: '"' :: rest => (csvUnescapeChars rest).map (fun l => '"' :: l)
  | '"' :: _ => none
  | c :: rest => (csvUnescapeChars rest).map (fun l => c :: l)

/-- Parse one quoted CSV field under standard CSV quoting rules: strip the
    surrounding double quotes and undouble interior quotes. -/
def csvUnquote (s : String) : Option String :=
  match s.data with
  | '"' :: rest =>
    if rest.getLast? = some '"' then
      (csvUnescapeChars rest.dropLast).map String.mk
    else none
  | _ => none

/-! ### Run ledger (scraper_runs row lifecycle) -/

/-- Run lifecycle status values written by the scraper. -/
inductive RunStatus where
  | running
  | completed
  | failed
deriving DecidableEq

/-- The scraper_runs row fields the pipeline writes. -/
structure RunRecord where
  status : RunStatus
  completed_at : Option Nat
  total_companies : Option Nat
  pages_fetched : Option Nat
  error_message : Option String
  jsonl_file_path : Option String
  csv_file_path : Option String
deriving DecidableEq

/-- The insert that creates a run:
    `.insert({ status: 'running', target_date })` — no other column is set. -/
def createRun : RunRecord :=
  { status := .running, completed_at := none, total_companies := none,
    pages_fetched := none, error_message := none,
    jsonl_file_path := none, csv_file_path := none }

/-- The per-page progress update: only the two counters. -/
def updateProgress (totalCompanies pagesFetched : Nat) (r : RunRecord) : RunRecord :=
  { r with total_companies := some totalCompanies,
           pages_fetched := some pagesFetched }

/-- The completion update: `status: 'completed'` and
    `completed_at: new Date().toISOString()` set together in one update,
    along with the final counters and artifact paths. -/
def completeRun (t totalCompanies pagesFetched : Nat) (jsonlFile csvFile : String)
    (r : RunRecord) : RunRecord :=
  { r with status := .completed, completed_at := some t,
           total_companies := some totalCompanies,
           pages_fetched := some pagesFetched,
           jsonl_file_path := some jsonlFile,
           csv_file_path := some csvFile }

/-- The failure update of the top-level error handler: `status: 'failed'`,
    `completed_at` and `error_message` set together in one update. -/
def failRun (t : Nat) (msg : String) (r : RunRecord) : RunRecord :=
  { r with status := .failed, completed_at := some t,
           error_message := some msg }

/-- The updates the pipeline ever applies to its own run row. -/
inductive RunStep : RunRecord → RunRecord → Prop where
  | progress (n p : Nat) (r : RunRecord) : RunStep r (updateProgress n p r)
  | complete (t n p : Nat) (j c : String) (r : RunRecord) :
      RunStep r (completeRun t n p j c r)
  | fail (t : Nat) (msg : String) (r : RunRecord) : RunStep r (failRun t msg r)

/-- The claimed invariant: at most one of {completed_at set, status=running}. -/
def runInv (r : RunRecord) : Prop :=
  ¬(r.completed_at ≠ none ∧ r.status = .running)

/-! ### Contact resolver (search-email edge function) -/

/-- The teaser block of a RocketReach profile.  Each field is optional in
    the TypeScript interface; the handler normalises every absent field to
    `[]` with `|| []`, so the fields are modelled as plain lists.  Phone
    entries are opaque to the handler (only their count matters), so they
    are modelled as strings. -/
structure Teaser where
  emails : List String
  professional_emails : List String
  personal_emails : List String
  phones : List String
  preview : List String
deriving DecidableEq

/-- One RocketReach profile as used by the handler. -/
structure RRProfile where
  id : Option Nat
  name : Option String
  current_title : Option String
  current_employer : Option String
  location : Option String
  linkedin_url : Option String
  teaser : Option Teaser
deriving DecidableEq

/-- The parsed RocketReach response body; only `profiles` drives control
    flow in the handler. -/
structure RocketReachResponse where
  profiles : Option (List RRProfile)
deriving DecidableEq

/-- The denormalised profile snippet embedded in a successful result. -/
structure ProfileSnippet where
  name : Option String
  title : Option String
  employer : Option String
  location : Option String
deriving DecidableEq

/-- The `EmailSearchResult` JSON shape the function responds with.  Fields
    the code sets to `undefined` are `none`. -/
structure EmailSearchResult where
  found : Bool
  email : Option String
  emails : Option (List String)
  phones : Option (List String)
  linkedin : Option String
  source : Option String
  error : Option String
  profile : Option ProfileSnippet
deriving DecidableEq

/-- The request body `{ name, location?, company_sic_code?, detailed_location? }`. -/
structure EmailSearchRequest where
  name : String
  location : Option String
  company_sic_code : Option String
  detailed_location : Option String
deriving DecidableEq

/-- JavaScript truthiness of an optional string (absent or empty is falsy). -/
def strPresent : Option String → Bool
  | none => false
  | some s => s != ""

/-- A `found:false` response body carrying only an error message. -/
def emptyResult (e : String) : EmailSearchResult :=
  { found := false, email := none, emails := none, phones := none,
    linkedin := none, source := none, error := some e, profile := none }

/-- All emails the handler combines:
    `[...emails, ...professional_emails, ...personal_emails]`, each list
    defaulted with `|| []` from the optional teaser. -/
def allEmailsOf (p : RRProfile) : List String :=
  (p.teaser.map Teaser.emails).getD []
    ++ (p.teaser.map Teaser.professional_emails).getD []
    ++ (p.teaser.map Teaser.personal_emails).getD []

/-- `profile.teaser?.phones || []`. -/
def phonesOf (p : RRProfile) : List String :=
  (p.teaser.map Teaser.phones).getD []

/-- `profile.teaser?.preview || []`. -/
def previewOf (p : RRProfile) : List String :=
  (p.teaser.map Teaser.preview).getD []

/-- The `processResults` helper: if the response carries at least one
    profile, build the success body from the first profile and return it;
    otherwise return null so the caller falls through to the next tier. -/
def processResults (data : RocketReachResponse) (source : String) :
    Option EmailSearchResult :=
  match data.profiles with
  | some (profile :: _) =>
    let allEmails := allEmailsOf profile
    let phones := phonesOf profile
    let preview := previewOf profile
    some { found := true,
           email :=
             match allEmails with
             | e :: _ => some e
             | [] =>
               match preview with
               | p :: _ => some ("[Hidden - " ++ p ++ "]")
               | [] => none,
           emails := match allEmails with | [] => none | _ => some allEmails,
           phones := match phones with | [] => none | _ => some phones,
           linkedin := profile.linkedin_url,
           source := some source,
           error :=
             match allEmails, preview with
             | [], _ :: _ => some "Email/phone requires RocketReach credits to reveal"
             | _, _ => none,
           profile := some { name := profile.name, title := profile.current_title,
                             employer := profile.current_employer,
                             location := profile.location } }
  | _ => none

/-- The three search tiers of the handler. -/
inductive SearchTier where
  | search1
  | search2
  | search3
deriving DecidableEq

/-- The source label each tier passes to `processResults`. -/
def tierSource : SearchTier → String
  | .search1 => "RocketReach (Search 1: name + location + company_sic_code)"
  | .search2 => "RocketReach (Search 2: name + detailed_location)"
  | .search3 => "RocketReach (Search 3: name + location)"

/-- One tier's contribution: `performSearch` (null on a non-2xx status, an
    empty body or a parse failure) followed by `processResults` (null when
    the response has no profiles). -/
def tierResult (upstream : SearchTier → Option RocketReachResponse)
    (t : SearchTier) : Option EmailSearchResult :=
  (upstream t).bind (fun d => processResults d (tierSource t))

/-- The whole POST handler after JSON parsing, with the RocketReach
    upstream abstracted per tier.  Returns the list of tiers actually
    invoked, the HTTP status, and the response body.  The query parameters
    each tier sends (including the SIC number split off
    `company_sic_code`) do not affect control flow and are absorbed into
    the upstream function. -/
def searchEmail (req : EmailSearchRequest)
    (upstream : SearchTier → Option RocketReachResponse) :
    List SearchTier × Nat × EmailSearchResult :=
  if req.name = "" then
    ([], 400, emptyResult "Name is required")
  else if strPresent req.location = false then
    ([], 400, emptyResult "Location is required for search")
  else
    let calls1 := if strPresent req.company_sic_code then [SearchTier.search1] else []
    let run1 :=
      if strPresent req.company_sic_code then tierResult upstream .search1 else none
    match run1 with
    | some r => (calls1, 200, r)
    | none =>
      let calls2 := if strPresent req.detailed_location then [SearchTier.search2] else []
      let run2 :=
        if strPresent req.detailed_location then tierResult upstream .search2 else none
      match run2 with
      | some r => (calls1 ++ calls2, 200, r)
      | none =>
        match tierResult upstream .search3 with
        | some r => (calls1 ++ calls2 ++ [SearchTier.search3], 200, r)
        | none =>
          (calls1 ++ calls2 ++ [SearchTier.search3], 200,
           emptyResult "No profiles found after all search attempts")

/-- Whether a tier's upstream outcome yields at least one profile (the
    code's short-circuit condition). -/
def tierYieldsProfile (o : Option RocketReachResponse) : Bool :=
  match o with
  | some d => !(d.profiles.getD []).isEmpty
  | none => false

/-- Whether a profile carries any extractable contact surface in the sense
    of the specification: an email, a phone, or a professional-network
    link.  This is a spec-side notion used to state the tiering claim. -/
def hasContactSurface (p : RRProfile) : Bool :=
  !(allEmailsOf p).isEmpty || !(phonesOf p).isEmpty || p.linkedin_url.isSome

/-- Whether no profile offered by any tier of an upstream carries a contact
    surface (spec-side, for the tiering claim). -/
def noUsableProfileFrom (upstream : SearchTier → Option RocketReachResponse) : Bool :=
  [SearchTier.search1, SearchTier.search2, SearchTier.search3].all fun t =>
    match upstream t with
    | some d => (d.profiles.getD []).all (fun p => !hasContactSurface p)
    | none => true

/-! ### Officer date-of-birth display formatters (dashboard pages) -/

/-- Partial date of birth as in the Officer interface:
    `date_of_birth?: { month?: number; year?: number }`. -/
structure OfficerDOB where
  month : Option Nat
  year : Option Nat
deriving DecidableEq

/-- JavaScript falsiness of an optional number: `!x` is true when the value
    is absent or zero. -/
def natFalsy : Option Nat → Bool
  | none => true
  | some n => n == 0

/-- The `monthNames` array of the companies page (also the en-GB long month
    names used by the dashboard formatter). -/
def monthNames : List String :=
  ["January", "February", "March", "April", "May", "June",
   "July", "August", "September", "October", "November", "December"]

/-- Companies-page formatter `formatOfficerDateOfBirth`: requires both
    month and year to be present (and truthy), otherwise "Not available". -/
def formatOfficerDateOfBirth (dob : Option OfficerDOB) : String :=
  match dob with
  | none => "Not available"
  | some d =>
    if natFalsy d.month || natFalsy d.year then "Not available"
    else (monthNames.getD (d.month.getD 0 - 1) "undefined") ++ " " ++ toString (d.year.getD 0)

/-- Dashboard formatter `formatDateOfBirth`: month+year renders a long month
    name and year, a present but incomplete value renders
    "Partial date available". -/
def formatDateOfBirth (dob : Option OfficerDOB) : String :=
  match dob with
  | none => "Not available"
  | some d =>
    if !natFalsy d.month && !natFalsy d.year then
      (monthNames.getD (d.month.getD 0 - 1) "undefined") ++ " " ++ toString (d.year.getD 0)
    else "Partial date available"

/-! ### Paginated fetch loop (scraper `Deno.serve` handler) -/

/-- `RATE_LIMIT = 600` requests per window. -/
def RATE_LIMIT : Nat := 600

/-- `PAGE_SIZE = 100`, the maximum page size allowed by the API. -/
def PAGE_SIZE : Nat := 100

/-- `MAX_COMPANIES = 5`, the hard cap of the capped (active) scraper. -/
def MAX_COMPANIES : Nat := 5

/-- A page body of the full scraper's `SearchResponse` interface, where
    `total_results` is a required field. -/
structure FullPage where
  items : List CompanySearchResult
  total_results : Nat
deriving DecidableEq

/-- A page body of the capped scraper's `SearchResponse` interface, where
    both spellings of the total are optional
    (`total_results?` / `totalResults?`). -/
structure CappedPage where
  items : List CompanySearchResult
  total_results : Option Nat
  totalResults : Option Nat
deriving DecidableEq

/-- One upstream HTTP outcome for a fetch attempt: a 429 with an optional
    `Retry-After` value (in seconds), another non-2xx status, or a 2xx with
    a parsed page body. -/
inductive UpstreamResponse (α : Type) where
  | tooMany (retryAfter : Option Nat)
  | httpError (status : Nat)
  | ok (page : α)
deriving DecidableEq

/-- Mutable loop state of the fetch loop (`allCompanies`, `startIndex`,
    `totalResults`, `pagesFetched` and the rate-limit request counter),
    extended with observation logs: the `start_index` of every issued
    request and the seconds each 429 made the loop wait. -/
structure FetchState where
  allCompanies : List CompanySearchResult
  startIndex : Nat
  totalResults : Nat
  pagesFetched : Nat
  requestCount : Nat
  requests : List Nat
  waits : List Nat
deriving DecidableEq

/-- The state right before the loop: empty accumulator, zero offsets. -/
def initState : FetchState :=
  { allCompanies := [], startIndex := 0, totalResults := 0,
    pagesFetched := 0, requestCount := 0, requests := [], waits := [] }

/-- Effect of issuing one request: the offset is logged and
    `rateLimitState.requestCount++` runs (line right after `fetch`). -/
def afterAttempt (s : FetchState) : FetchState :=
  { s with requestCount := s.requestCount + 1,
           requests := s.requests ++ [s.startIndex] }

/-- `retryAfter ? parseInt(retryAfter) : 60` — seconds waited on a 429. -/
def waitSecondsOf (retryAfter : Option Nat) : Nat :=
  match retryAfter with
  | some w => w
  | none => 60

/-- The 429 branch: log the wait and leave every loop variable
    (`allCompanies`, `startIndex`, `totalResults`, `pagesFetched`)
    untouched — `continue` retries the same offset. -/
def afterRetry (s : FetchState) (retryAfter : Option Nat) : FetchState :=
  let s1 := afterAttempt s
  { s1 with waits := s1.waits ++ [waitSecondsOf retryAfter] }

/-- The success branch of the full scraper: capture `total_results` from
    the first page only, append the items, advance the counters. -/
def afterPage (page : FullPage) (s : FetchState) : FetchState :=
  let s1 := afterAttempt s
  { s1 with
      totalResults := if s1.pagesFetched = 0 then page.total_results else s1.totalResults,
      allCompanies := s1.allCompanies ++ page.items,
      pagesFetched := s1.pagesFetched + 1,
      startIndex := s1.startIndex + PAGE_SIZE }

/-- JavaScript `a || b` on an optional number: `some 0` is falsy. -/
def falsyOr (a : Option Nat) (b : Nat) : Nat :=
  match a with
  | some n => if n = 0 then b else n
  | none => b

/-- The success branch of the capped scraper: the first-page total is
    `data.total_results || data.totalResults || data.items.length`. -/
def afterPageCapped (page : CappedPage) (s : FetchState) : FetchState :=
  let s1 := afterAttempt s
  { s1 with
      totalResults :=
        if s1.pagesFetched = 0 then
          falsyOr page.total_results (falsyOr page.totalResults page.items.length)
        else s1.totalResults,
      allCompanies := s1.allCompanies ++ page.items,
      pagesFetched := s1.pagesFetched + 1,
      startIndex := s1.startIndex + PAGE_SIZE }

/-- Outcome of a fetch loop: normal break, a thrown `API request failed`
    error, or fuel exhaustion (the `do...while(true)` loop never reached a
    break condition within the given number of iterations). -/
inductive FetchResult where
  | success (s : FetchState)
  | failed (status : Nat)
  | outOfFuel
deriving DecidableEq

/-- The full scraper's `do ... while(true)` fetch loop, fuelled.  The
    upstream is modelled as the sequence of responses it gives to the
    successive requests (attempt number `s.requestCount`).  The loop breaks
    when `allCompanies.length >= totalResults`. -/
def fetchLoop (responses : Nat → UpstreamResponse FullPage) : Nat → FetchState → FetchResult
  | 0, _ => .outOfFuel
  | fuel + 1, s =>
    match responses s.requestCount with
    | .tooMany ra => fetchLoop responses fuel (afterRetry s ra)
    | .httpError code => .failed code
    | .ok page =>
      if (afterPage page s).allCompanies.length ≥ (afterPage page s).totalResults then
        .success (afterPage page s)
      else fetchLoop responses fuel (afterPage page s)

/-- The capped scraper's fetch loop: identical 429 and error handling, but
    it breaks when `allCompanies.length >= MAX_COMPANIES` or when a page
    returns fewer than `PAGE_SIZE` items. -/
def fetchLoopCapped (responses : Nat → UpstreamResponse CappedPage) : Nat → FetchState → FetchResult
  | 0, _ => .outOfFuel
  | fuel + 1, s =>
    match responses s.requestCount with
    | .tooMany ra => fetchLoopCapped responses fuel (afterRetry s ra)
    | .httpError code => .failed code
    | .ok page =>
      if (afterPageCapped page s).allCompanies.length ≥ MAX_COMPANIES
          ∨ page.items.length < PAGE_SIZE then
        .success (afterPageCapped page s)
      else fetchLoopCapped responses fuel (afterPageCapped page s)

/-! ### Capped scraper pipeline after the loop (persist, export, respond) -/

/-- What the capped scraper persists, exports and reports once the loop is
    done: `limitedCompanies = allCompanies.slice(0, MAX_COMPANIES)` feeds
    the database insert, the JSONL artifact, the CSV artifact, and the
    response's `totalCompanies`. -/
structure ScrapeSuccess where
  storedCompanies : List CompanySearchResult
  jsonlLineCount : Nat
  csvLines : List String
  totalCompanies : Nat
  pagesFetched : Nat
deriving DecidableEq

/-- The post-loop tail of the capped scraper handler. -/
def scrapePipelineCapped (responses : Nat → UpstreamResponse CappedPage) (fuel : Nat) :
    Option ScrapeSuccess :=
  match fetchLoopCapped responses fuel initState with
  | .success s =>
    let limitedCompanies := s.allCompanies.take MAX_COMPANIES
    some { storedCompanies := limitedCompanies,
           jsonlLineCount := limitedCompanies.length,
           csvLines := csvHeaderLine :: limitedCompanies.map csvLine,
           totalCompanies := limitedCompanies.length,
           pagesFetched := s.pagesFetched }
  | _ => none

/-! ### Concrete sample inputs used by witnesses and counterexamples -/

/-- A sample company with all optional fields absent. -/
def wCompany : CompanySearchResult :=
  { company_number := "00000001", company_name := "Sample Ltd",
    company_status := "active", date_of_creation := "2025-10-09",
    registered_office_address := none, company_type := none, sic_codes := none }

/-- An upstream trace for the 250-result scenario: three clean pages of
    100, 100 and 50 items, each reporting `total_results = 250`. -/
def c1Responses : Nat → UpstreamResponse FullPage := fun n =>
  if n = 0 then .ok { items := List.replicate 100 wCompany, total_results := 250 }
  else if n = 1 then .ok { items := List.replicate 100 wCompany, total_results := 250 }
  else .ok { items := List.replicate 50 wCompany, total_results := 250 }

/-- An upstream trace that answers the first attempt with
    429 / `Retry-After: 2` and every later attempt with a clean page. -/
def c2Responses : Nat → UpstreamResponse FullPage := fun n =>
  if n = 0 then .tooMany (some 2)
  else .ok { items := [], total_results := 0 }

/-- The capped-scraper analogue of `c2Responses`. -/
def c2CappedResponses : Nat → UpstreamResponse CappedPage := fun n =>
  if n = 0 then .tooMany (some 2)
  else .ok { items := [], total_results := some 0, totalResults := none }

/-- An upstream whose first page reports `total_results = 0` with no items. -/
def c9Responses : Nat → UpstreamResponse FullPage := fun _ =>
  .ok { items := [], total_results := 0 }

/-- A capped-scraper upstream whose first page carries zero items. -/
def c9CappedResponses : Nat → UpstreamResponse CappedPage := fun _ =>
  .ok { items := [], total_results := some 0, totalResults := none }

/-- A malformed full-scraper upstream: every page reports
    `total_results = 5` but carries zero items. -/
def c9BadResponses : Nat → UpstreamResponse FullPage := fun _ =>
  .ok { items := [], total_results := 5 }

/-- The full fetch loop diverges on an upstream: no amount of fuel makes it
    reach a break condition from the initial state. -/
def fullLoopDiverges (responses : Nat → UpstreamResponse FullPage) : Prop :=
  ∀ fuel : Nat, fetchLoop responses fuel initState = .outOfFuel

/-- A capped-scraper upstream serving a single short page of 7 companies
    while reporting a total of 7. -/
def c10Responses : Nat → UpstreamResponse CappedPage := fun _ =>
  .ok { items := List.replicate 7 wCompany, total_results := some 7, totalResults := none }

/-- The pipeline output on `c10Responses`: 5 of the 7 fetched companies. -/
def c10Result : ScrapeSuccess :=
  { storedCompanies := List.replicate 5 wCompany,
    jsonlLineCount := 5,
    csvLines := csvHeaderLine :: (List.replicate 5 wCompany).map csvLine,
    totalCompanies := 5,
    pagesFetched := 1 }

/-- A profile with no contact surface at all: no teaser, no network link. -/
def bareProfile : RRProfile :=
  { id := none, name := some "J Doe", current_title := none,
    current_employer := none, location := none, linkedin_url := none,
    teaser := none }

/-- A tiering request with name, location and classification all present. -/
def c3Req : EmailSearchRequest :=
  { name := "Jane Doe", location := some "London",
    company_sic_code := some "62020 - IT consultancy", detailed_location := none }

/-- A tier oracle whose Search 1 yields only `bareProfile` and whose other
    tiers yield no profiles. -/
def c3Upstream : SearchTier → Option RocketReachResponse := fun t =>
  match t with
  | .search1 => some { profiles := some [bareProfile] }
  | _ => some { profiles := some [] }

/-- A profile whose teaser carries one revealed email. -/
def emailProfile : RRProfile :=
  { id := some 7, name := some "Oliver Example", current_title := some "Director",
    current_employer := some "Example Ltd", location := some "London",
    linkedin_url := none,
    teaser := some { emails := ["oliver@example.co.uk"], professional_emails := [],
                     personal_emails := [], phones := [], preview := [] } }

/-- A request with every search input present. -/
def c3wReq : EmailSearchRequest :=
  { name := "Oliver Example", location := some "London",
    company_sic_code := some "62012 - Business", detailed_location := some "Camden, London" }

/-- A tier oracle whose Search 1 yields `emailProfile`; later tiers would
    transport-fail if they were ever reached. -/
def c3wUpstream : SearchTier → Option RocketReachResponse := fun t =>
  match t with
  | .search1 => some { profiles := some [emailProfile] }
  | _ => none

/-- A profile whose contact data is gated: a redacted preview only. -/
def gatedProfile : RRProfile :=
  { id := none, name := some "G Ated", current_title := none,
    current_employer := none, location := some "Leeds", linkedin_url := none,
    teaser := some { emails := [], professional_emails := [], personal_emails := [],
                     phones := [], preview := ["j***@acme.com"] } }

/-- A request exercising only Search 3 (no classification, no detailed
    location). -/
def c6Req : EmailSearchRequest :=
  { name := "G Ated", location := some "Leeds",
    company_sic_code := none, detailed_location := none }

/-- A tier oracle whose Search 3 yields the gated profile. -/
def c6Upstream : SearchTier → Option RocketReachResponse := fun t =>
  match t with
  | .search3 => some { profiles := some [gatedProfile] }
  | _ => none

/-- A request with a name but no location. -/
def c7Req : EmailSearchRequest :=
  { name := "John Smith", location := none,
    company_sic_code := none, detailed_location := none }

/-- A tier oracle that transport-fails everywhere. -/
def c7Upstream : SearchTier → Option RocketReachResponse := fun _ => none

/-- A request whose location is present but empty, hence falsy. -/
def c7wReq : EmailSearchRequest :=
  { name := "Ada", location := some "",
    company_sic_code := none, detailed_location := none }

end DailyCompanyStream

namespace DailyCompanyStream

/-! ### Helper lemmas for the CSV round trip -/

theorem csvUnescapeChars_escape (l : List Char) :
    csvUnescapeChars (csvEscapeChars l) = some l := by
  induction l with
  | nil => rfl
  | cons c rest ih =>
    by_cases hc : c = '"'
    · subst hc
      simp [csvEscapeChars, csvUnescapeChars, ih]
    · simp [csvEscapeChars, csvUnescapeChars, hc, ih]

theorem csvQuote_data (s : String) :
    (csvQuote s).data = '"' :: (csvEscapeChars s.data ++ ['"']) := by
  simp [csvQuote, csvEscape, String.data_append]

theorem csvUnquote_csvQuote (s : String) :
    csvUnquote (csvQuote s) = some s := by
  rw [csvUnquote]
  rw [csvQuote_data]
  simp [List.getLast?_concat, List.dropLast_concat, csvUnescapeChars_escape]

/-- C5: the CSV export emits the fixed column order company_number,
    company_name, company_status, date_of_creation, company_type,
    address_line_1, address_line_2, locality, postal_code, country,
    sic_codes; text fields are double-quoted with internal quotes doubled
    and re-parse to the original string under standard CSV quoting rules
    (in particular `O"Brien Ltd` is written as `"O""Brien Ltd"`); absent
    optional fields become the empty string; SIC codes are joined with
    `"; "`. -/
theorem c5_csv_fixed_columns_and_quoting :
    csvHeaderLine = "company_number,company_name,company_status,date_of_creation,company_type,address_line_1,address_line_2,locality,postal_code,country,sic_codes"
    ∧ (∀ c : CompanySearchResult, (csvFields c).length = 11
        ∧ (csvFields c).getD 1 "" = csvQuote c.company_name)
    ∧ (∀ s : String, csvUnquote (csvQuote s) = some s)
    ∧ csvQuote "O\"Brien Ltd" = "\"O\"\"Brien Ltd\""
    ∧ csvUnquote "\"O\"\"Brien Ltd\"" = some "O\"Brien Ltd"
    ∧ (∀ c : CompanySearchResult, c.company_type = none → (csvFields c).getD 4 "" = "")
    ∧ (∀ c : CompanySearchResult, c.registered_office_address = none →
        (csvFields c).getD 8 "" = "" ∧ (csvFields c).getD 9 "" = ""
        ∧ (csvFields c).getD 5 "" = csvQuote "")
    ∧ (∀ (c : CompanySearchResult) (l : List String), c.sic_codes = some l →
        (csvFields c).getD 10 "" = csvQuote (String.intercalate "; " l)) := by
  refine ⟨rfl, ?_, csvUnquote_csvQuote, rfl, by decide, ?_, ?_, ?_⟩
  · intro c
    exact ⟨rfl, rfl⟩
  · intro c h
    simp [csvFields, h]
  · intro c h
    simp [csvFields, addrField, h]
  · intro c l h
    simp [csvFields, h]

/-- C5 witness: the quoting, column and absent-field facts evaluated at the
    sample company and sample strings. -/
theorem c5_csv_fixed_columns_and_quoting_witness :
    (csvFields wCompany).length = 11
    ∧ csvUnquote (csvQuote "x,y") = some "x,y"
    ∧ wCompany.company_type = none
    ∧ (csvFields wCompany).getD 4 "" = ""
    ∧ (csvFields wCompany).getD 8 "" = "" := by
  refine ⟨(c5_csv_fixed_columns_and_quoting.2.1 wCompany).1,
          c5_csv_fixed_columns_and_quoting.2.2.1 "x,y",
          rfl,
          c5_csv_fixed_columns_and_quoting.2.2.2.2.2.1 wCompany rfl,
          (c5_csv_fixed_columns_and_quoting.2.2.2.2.2.2.1 wCompany rfl).1⟩

/-- C8 counterexample: the dashboard formatter `formatDateOfBirth` (one of
    the two cited display formatters) renders a year-only date of birth as
    "Partial date available", not "Not available" as claimed. -/
theorem c8_counterexample :
    formatDateOfBirth (some { month := none, year := some 1980 }) = "Partial date available"
    ∧ formatDateOfBirth (some { month := none, year := some 1980 }) ≠ "Not available" := by
  exact ⟨rfl, by decide⟩

/-- C8 amended: both display formatters render `{month:5, year:1980}` as
    "May 1980"; for a value with only `year` set, the companies-page
    formatter `formatOfficerDateOfBirth` renders "Not available" while the
    dashboard formatter `formatDateOfBirth` renders
    "Partial date available". -/
theorem c8_dob_formatting :
    formatOfficerDateOfBirth (some { month := some 5, year := some 1980 }) = "May 1980"
    ∧ formatDateOfBirth (some { month := some 5, year := some 1980 }) = "May 1980"
    ∧ (∀ y : Option Nat,
        formatOfficerDateOfBirth (some { month := none, year := y }) = "Not available")
    ∧ (∀ y : Option Nat,
        formatDateOfBirth (some { month := none, year := y }) = "Partial date available") := by
  refine ⟨rfl, rfl, fun y => rfl, fun y => rfl⟩

/-- C4: a run is created with status=running and completed_at unset; every
    terminal transition (completion or failure) sets status and
    completed_at together in one update; consequently every run record
    reachable from creation through the pipeline's updates satisfies
    "at most one of {completed_at set, status=running}". -/
theorem c4_run_lifecycle_invariant :
    (createRun.status = RunStatus.running ∧ createRun.completed_at = none)
    ∧ (∀ r r' : RunRecord, runInv r → RunStep r r' → runInv r')
    ∧ (∀ r : RunRecord, Relation.ReflTransGen RunStep createRun r → runInv r) := by
  have hinit : runInv createRun := by
    simp [runInv, createRun]
  have hstep : ∀ r r' : RunRecord, runInv r → RunStep r r' → runInv r' := by
    intro r r' hr h
    cases h with
    | progress n p r => simpa [runInv, updateProgress] using hr
    | complete t n p j c r => simp [runInv, completeRun]
    | fail t msg r => simp [runInv, failRun]
  refine ⟨⟨rfl, rfl⟩, hstep, ?_⟩
  intro r h
  induction h with
  | refl => exact hinit
  | tail _ hbc ih => exact hstep _ _ ih hbc

/-- C4 witness: a run that recorded progress and then failed satisfies the
    invariant. -/
theorem c4_run_lifecycle_invariant_witness :
    runInv (failRun 5 "boom" (updateProgress 3 1 createRun)) :=
  c4_run_lifecycle_invariant.2.2 _
    (Relation.ReflTransGen.tail
      (Relation.ReflTransGen.tail Relation.ReflTransGen.refl
        (RunStep.progress 3 1 createRun))
      (RunStep.fail 5 "boom" (updateProgress 3 1 createRun)))

/-! ### Projection lemmas for fetch-loop states -/

@[simp] theorem initState_allCompanies : initState.allCompanies = [] := rfl

@[simp] theorem initState_startIndex : initState.startIndex = 0 := rfl

@[simp] theorem initState_totalResults : initState.totalResults = 0 := rfl

@[simp] theorem initState_pagesFetched : initState.pagesFetched = 0 := rfl

@[simp] theorem initState_requestCount : initState.requestCount = 0 := rfl

@[simp] theorem initState_requests : initState.requests = [] := rfl

@[simp] theorem afterPage_allCompanies (p : FullPage) (s : FetchState) :
    (afterPage p s).allCompanies = s.allCompanies ++ p.items := rfl

@[simp] theorem afterPage_totalResults (p : FullPage) (s : FetchState) :
    (afterPage p s).totalResults
      = if s.pagesFetched = 0 then p.total_results else s.totalResults := rfl

@[simp] theorem afterPage_pagesFetched (p : FullPage) (s : FetchState) :
    (afterPage p s).pagesFetched = s.pagesFetched + 1 := rfl

@[simp] theorem afterPage_startIndex (p : FullPage) (s : FetchState) :
    (afterPage p s).startIndex = s.startIndex + PAGE_SIZE := rfl

@[simp] theorem afterPage_requestCount (p : FullPage) (s : FetchState) :
    (afterPage p s).requestCount = s.requestCount + 1 := rfl

@[simp] theorem afterPage_requests (p : FullPage) (s : FetchState) :
    (afterPage p s).requests = s.requests ++ [s.startIndex] := rfl

@[simp] theorem afterPageCapped_allCompanies (p : CappedPage) (s : FetchState) :
    (afterPageCapped p s).allCompanies = s.allCompanies ++ p.items := rfl

@[simp] theorem afterPageCapped_pagesFetched (p : CappedPage) (s : FetchState) :
    (afterPageCapped p s).pagesFetched = s.pagesFetched + 1 := rfl

@[simp] theorem afterPageCapped_startIndex (p : CappedPage) (s : FetchState) :
    (afterPageCapped p s).startIndex = s.startIndex + PAGE_SIZE := rfl

@[simp] theorem afterPageCapped_requestCount (p : CappedPage) (s : FetchState) :
    (afterPageCapped p s).requestCount = s.requestCount + 1 := rfl

@[simp] theorem afterPageCapped_requests (p : CappedPage) (s : FetchState) :
    (afterPageCapped p s).requests = s.requests ++ [s.startIndex] := rfl

/-- C2: when the upstream answers an attempt with HTTP 429, both fetch
    loops (full and capped scraper) wait the `Retry-After` seconds (60 when
    the header is absent) and retry with a state in which `startIndex` is
    not advanced, `pagesFetched` is not incremented and no items were
    appended; only the request log, the wait log and the rate-limit counter
    grow. -/
theorem c2_429_waits_and_retries_same_offset
    (responses : Nat → UpstreamResponse FullPage)
    (cresponses : Nat → UpstreamResponse CappedPage)
    (s : FetchState) (fuel : Nat) (ra : Option Nat)
    (h : responses s.requestCount = .tooMany ra)
    (hc : cresponses s.requestCount = .tooMany ra) :
    fetchLoop responses (fuel + 1) s = fetchLoop responses fuel (afterRetry s ra)
    ∧ fetchLoopCapped cresponses (fuel + 1) s = fetchLoopCapped cresponses fuel (afterRetry s ra)
    ∧ (afterRetry s ra).startIndex = s.startIndex
    ∧ (afterRetry s ra).pagesFetched = s.pagesFetched
    ∧ (afterRetry s ra).allCompanies = s.allCompanies
    ∧ (afterRetry s ra).totalResults = s.totalResults
    ∧ (afterRetry s ra).waits = s.waits ++ [ra.getD 60]
    ∧ (afterRetry s ra).requests = s.requests ++ [s.startIndex] := by
  refine ⟨?_, ?_, rfl, rfl, rfl, rfl, ?_, rfl⟩
  · simp only [fetchLoop, h]
  · simp only [fetchLoopCapped, hc]
  · cases ra <;> simp [afterRetry, afterAttempt, waitSecondsOf]

/-- C2 witness: on an upstream trace whose first attempt gets
    429 / `Retry-After: 2`, the loop retries offset 0 without advancing. -/
theorem c2_429_waits_and_retries_same_offset_witness :
    fetchLoop c2Responses 4 initState = fetchLoop c2Responses 3 (afterRetry initState (some 2))
    ∧ (afterRetry initState (some 2)).startIndex = initState.startIndex
    ∧ (afterRetry initState (some 2)).pagesFetched = initState.pagesFetched
    ∧ (afterRetry initState (some 2)).allCompanies = initState.allCompanies
    ∧ (afterRetry initState (some 2)).waits = initState.waits ++ [(some 2).getD 60]
    ∧ (afterRetry initState (some 2)).requests = initState.requests ++ [initState.startIndex] := by
  have h := c2_429_waits_and_retries_same_offset c2Responses c2CappedResponses
    initState 3 (some 2) rfl rfl
  exact ⟨h.1, h.2.2.1, h.2.2.2.1, h.2.2.2.2.1, h.2.2.2.2.2.2.1, h.2.2.2.2.2.2.2⟩

/-- C1: against an upstream that reports `total_results = 250` and serves
    error-free pages of the requested size (100, 100, then the remaining
    50), the full scraper's fetch loop issues exactly 3 page requests at
    start_index offsets 0, 100 and 200, and exits with exactly 250
    accumulated companies. -/
theorem c1_paginated_fetch_three_pages
    (responses : Nat → UpstreamResponse FullPage)
    (i0 i1 i2 : List CompanySearchResult)
    (h0 : responses 0 = .ok { items := i0, total_results := 250 })
    (h1 : responses 1 = .ok { items := i1, total_results := 250 })
    (h2 : responses 2 = .ok { items := i2, total_results := 250 })
    (l0 : i0.length = 100) (l1 : i1.length = 100) (l2 : i2.length = 50) :
    fetchLoop responses 3 initState
      = FetchResult.success
          (afterPage { items := i2, total_results := 250 }
            (afterPage { items := i1, total_results := 250 }
              (afterPage { items := i0, total_results := 250 } initState)))
    ∧ (afterPage { items := i2, total_results := 250 }
        (afterPage { items := i1, total_results := 250 }
          (afterPage { items := i0, total_results := 250 } initState))).requests
        = [0, 100, 200]
    ∧ (afterPage { items := i2, total_results := 250 }
        (afterPage { items := i1, total_results := 250 }
          (afterPage { items := i0, total_results := 250 } initState))).allCompanies.length
        = 250
    ∧ (afterPage { items := i2, total_results := 250 }
        (afterPage { items := i1, total_results := 250 }
          (afterPage { items := i0, total_results := 250 } initState))).pagesFetched
        = 3 := by
  refine ⟨?_, ?_, ?_, ?_⟩
  · simp [fetchLoop, h0, h1, h2, l0, l1, l2]
  · simp [PAGE_SIZE]
  · simp [l0, l1, l2]
  · simp

/-- C1 witness: the concrete three-page 250-result upstream trace. -/
theorem c1_paginated_fetch_three_pages_witness :
    fetchLoop c1Responses 3 initState
      = FetchResult.success
          (afterPage { items := List.replicate 50 wCompany, total_results := 250 }
            (afterPage { items := List.replicate 100 wCompany, total_results := 250 }
              (afterPage { items := List.replicate 100 wCompany, total_results := 250 }
                initState)))
    ∧ (afterPage { items := List.replicate 50 wCompany, total_results := 250 }
        (afterPage { items := List.replicate 100 wCompany, total_results := 250 }
          (afterPage { items := List.replicate 100 wCompany, total_results := 250 }
            initState))).requests = [0, 100, 200]
    ∧ (afterPage { items := List.replicate 50 wCompany, total_results := 250 }
        (afterPage { items := List.replicate 100 wCompany, total_results := 250 }
          (afterPage { items := List.replicate 100 wCompany, total_results := 250 }
            initState))).allCompanies.length = 250
    ∧ (afterPage { items := List.replicate 50 wCompany, total_results := 250 }
        (afterPage { items := List.replicate 100 wCompany, total_results := 250 }
          (afterPage { items := List.replicate 100 wCompany, total_results := 250 }
            initState))).pagesFetched = 3 :=
  c1_paginated_fetch_three_pages c1Responses
    (List.replicate 100 wCompany) (List.replicate 100 wCompany) (List.replicate 50 wCompany)
    rfl rfl rfl (by simp) (by simp) (by simp)

/-- On the malformed upstream `c9BadResponses` (every page: zero items,
    reported total 5) the full fetch loop never reaches a break condition:
    the accumulator stays empty and the captured total stays 5. -/
theorem c9Bad_diverges_aux :
    ∀ (fuel : Nat) (s : FetchState), s.allCompanies = [] →
      (s.pagesFetched = 0 ∨ s.totalResults = 5) →
      fetchLoop c9BadResponses fuel s = .outOfFuel := by
  intro fuel
  induction fuel with
  | zero => intro s _ _; rfl
  | succ n ih =>
    intro s hs hinv
    have hresp : c9BadResponses s.requestCount = .ok { items := [], total_results := 5 } := rfl
    have hlen : (afterPage { items := [], total_results := 5 } s).allCompanies = [] := by
      simp [hs]
    have htot : (afterPage { items := [], total_results := 5 } s).totalResults = 5 := by
      rcases hinv with h0 | h5
      · simp [h0]
      · simp [h5]
    simp only [fetchLoop, hresp]
    rw [if_neg]
    · exact ih _ hlen (Or.inr htot)
    · rw [hlen, htot]
      simp

/-- C9 counterexample: the claim quantifies over every upstream whose first
    page returns zero items; on `c9BadResponses` (zero items but positive
    reported total) the full scraper's loop does not exit after the first
    page — it reaches no break condition under any amount of fuel. -/
theorem c9_counterexample :
    fullLoopDiverges c9BadResponses
    ∧ c9BadResponses 0 = .ok { items := [], total_results := 5 }
    ∧ ({ items := [], total_results := 5 } : FullPage).items.length = 0 := by
  refine ⟨?_, rfl, rfl⟩
  intro fuel
  exact c9Bad_diverges_aux fuel initState rfl (Or.inl rfl)

/-- C9 amended: when the first page reports `total_results = 0`, the full
    scraper's loop breaks immediately after that page (one request, at
    offset 0); the capped scraper's loop breaks after the first successful
    page unconditionally — its cap (5) is below the page size (100) — and
    in particular for a zero-item first page.  A zero-item first page with
    a positive reported total, however, makes the full loop diverge (see
    the counterexample). -/
theorem c9_zero_total_terminates
    (responses : Nat → UpstreamResponse FullPage)
    (cresponses : Nat → UpstreamResponse CappedPage)
    (fuel : Nat) (page : FullPage) (cpage : CappedPage)
    (h : responses 0 = .ok page) (htot : page.total_results = 0)
    (hc : cresponses 0 = .ok cpage) :
    fetchLoop responses (fuel + 1) initState = .success (afterPage page initState)
    ∧ (afterPage page initState).pagesFetched = 1
    ∧ (afterPage page initState).requests = [0]
    ∧ fetchLoopCapped cresponses (fuel + 1) initState
        = .success (afterPageCapped cpage initState)
    ∧ (afterPageCapped cpage initState).pagesFetched = 1
    ∧ (afterPageCapped cpage initState).requests = [0] := by
  refine ⟨?_, by simp, by simp, ?_, by simp, by simp⟩
  · simp [fetchLoop, h, htot]
  · have hcond : (afterPageCapped cpage initState).allCompanies.length ≥ MAX_COMPANIES
        ∨ cpage.items.length < PAGE_SIZE := by
      rcases Nat.lt_or_ge cpage.items.length PAGE_SIZE with hlt | hge
      · exact Or.inr hlt
      · left
        simp only [afterPageCapped_allCompanies, initState_allCompanies, List.nil_append]
        simp only [PAGE_SIZE] at hge
        simp only [MAX_COMPANIES]
        omega
    simp only [fetchLoopCapped, initState_requestCount, hc]
    rw [if_pos hcond]

/-- C9 witness: a first page reporting zero results with zero items makes
    both loops exit right after that page. -/
theorem c9_zero_total_terminates_witness :
    fetchLoop c9Responses 8 initState
      = .success (afterPage { items := [], total_results := 0 } initState)
    ∧ (afterPage { items := [], total_results := 0 } initState).pagesFetched = 1
    ∧ (afterPage { items := [], total_results := 0 } initState).requests = [0]
    ∧ fetchLoopCapped c9CappedResponses 8 initState
        = .success (afterPageCapped
            { items := [], total_results := some 0, totalResults := none } initState)
    ∧ (afterPageCapped { items := [], total_results := some 0, totalResults := none }
        initState).pagesFetched = 1
    ∧ (afterPageCapped { items := [], total_results := some 0, totalResults := none }
        initState).requests = [0] :=
  c9_zero_total_terminates c9Responses c9CappedResponses 7
    { items := [], total_results := 0 }
    { items := [], total_results := some 0, totalResults := none }
    rfl rfl rfl

/-- C10: whenever the capped (active) scraper's pipeline completes, what it
    stores in the database, writes to both export artifacts and reports as
    `totalCompanies` all come from `allCompanies.slice(0, MAX_COMPANIES)`:
    at most 5 companies, regardless of how many the upstream reported or
    served. -/
theorem c10_cap_limits_to_five
    (responses : Nat → UpstreamResponse CappedPage) (fuel : Nat) (r : ScrapeSuccess)
    (h : scrapePipelineCapped responses fuel = some r) :
    r.totalCompanies ≤ MAX_COMPANIES
    ∧ r.storedCompanies.length ≤ MAX_COMPANIES
    ∧ r.jsonlLineCount ≤ MAX_COMPANIES
    ∧ r.csvLines.length ≤ MAX_COMPANIES + 1
    ∧ ∃ s, fetchLoopCapped responses fuel initState = .success s
        ∧ r.storedCompanies = s.allCompanies.take MAX_COMPANIES
        ∧ r.totalCompanies = r.storedCompanies.length := by
  unfold scrapePipelineCapped at h
  cases hres : fetchLoopCapped responses fuel initState with
  | success s =>
    rw [hres] at h
    simp only [Option.some.injEq] at h
    subst h
    refine ⟨?_, ?_, ?_, ?_, s, rfl, rfl, rfl⟩ <;>
      simp [List.length_take, Nat.succ_le_succ]
  | failed st =>
    rw [hres] at h
    exact absurd h (by simp)
  | outOfFuel =>
    rw [hres] at h
    exact absurd h (by simp)

/-- C10 witness: a single page of 7 companies is truncated to 5 everywhere
    (storage, both exports' row counts, and the reported total). -/
theorem c10_cap_limits_to_five_witness :
    scrapePipelineCapped c10Responses 1 = some c10Result
    ∧ c10Result.totalCompanies ≤ MAX_COMPANIES
    ∧ c10Result.storedCompanies.length ≤ MAX_COMPANIES
    ∧ c10Result.jsonlLineCount ≤ MAX_COMPANIES
    ∧ c10Result.csvLines.length ≤ MAX_COMPANIES + 1 := by
  have heq : scrapePipelineCapped c10Responses 1 = some c10Result := rfl
  have h := c10_cap_limits_to_five c10Responses 1 c10Result heq
  exact ⟨heq, h.1, h.2.1, h.2.2.1, h.2.2.2.1⟩

/-! ### Helper lemmas for the contact resolver -/

/-- A response with at least one profile makes `processResults` succeed,
    with `found:true`, the given source label, and the first profile's
    snippet. -/
theorem processResults_profiles_some (d : RocketReachResponse) (src : String)
    (p : RRProfile) (ps : List RRProfile) (hp : d.profiles = some (p :: ps)) :
    ∃ r, processResults d src = some r ∧ r.found = true ∧ r.source = some src
      ∧ r.profile = some { name := p.name, title := p.current_title,
                           employer := p.current_employer, location := p.location } := by
  unfold processResults
  rw [hp]
  exact ⟨_, rfl, rfl, rfl, rfl⟩

/-- A first profile whose emails are all gated (none revealed, a preview
    present) produces the `[Hidden - ...]` placeholder and the credits
    error string. -/
theorem processResults_gated (d : RocketReachResponse) (src : String)
    (p : RRProfile) (ps : List RRProfile) (q : String) (qs : List String)
    (hp : d.profiles = some (p :: ps))
    (hnoem : allEmailsOf p = []) (hprev : previewOf p = q :: qs) :
    ∃ r, processResults d src = some r ∧ r.found = true
      ∧ r.email = some ("[Hidden - " ++ q ++ "]")
      ∧ r.error = some "Email/phone requires RocketReach credits to reveal"
      ∧ r.profile ≠ none := by
  unfold processResults
  rw [hp]
  refine ⟨_, rfl, rfl, ?_, ?_, by simp⟩
  · simp [hnoem, hprev]
  · simp [hnoem, hprev]

/-- A tier that yields no profile contributes nothing: its `tierResult` is
    null, so the handler falls through. -/
theorem tierResult_none_of_noProfile (upstream : SearchTier → Option RocketReachResponse)
    (t : SearchTier) (h : tierYieldsProfile (upstream t) = false) :
    tierResult upstream t = none := by
  unfold tierResult
  unfold tierYieldsProfile at h
  cases hu : upstream t with
  | none => rfl
  | some d =>
    rw [hu] at h
    cases hd : d.profiles with
    | none => simp [processResults, hd]
    | some l =>
      cases l with
      | nil => simp [processResults, hd]
      | cons p ps => simp [hd] at h

/-- The placeholder email's first seven characters spell the reserved
    `[Hidden` marker, whatever the preview text is. -/
theorem hidden_marker_take (q : String) :
    ("[Hidden - " ++ q ++ "]").data.take 7 = "[Hidden".data := by
  have h : ("[Hidden - " ++ q ++ "]").data
      = "[Hidden - ".data ++ (q.data ++ "]".data) := by
    simp [String.data_append, List.append_assoc]
  rw [h, List.take_append_of_le_length (by decide)]
  decide

/-- C3 counterexample: with name, location and classification present,
    Search 1 returns a single profile with no extractable contact surface
    whatsoever (no email, no phone, no professional-network link); no tier
    yields a usable profile, yet the handler answers `found:true` with a
    profile field instead of the claimed `{found:false, error:"..."}`. -/
theorem c3_counterexample :
    noUsableProfileFrom c3Upstream = true
    ∧ (searchEmail c3Req c3Upstream).2.2.found = true
    ∧ (searchEmail c3Req c3Upstream).2.2.profile ≠ none := by
  refine ⟨by decide, by decide, by decide⟩

/-- C3 amended: each tier runs only if its required inputs are present and
    the prior eligible tier yielded no profile at all; the first tier
    returning at least one profile (with or without a contact surface)
    short-circuits the chain — in particular, when Search 1 (with
    classification) returns a profile, Search 2 and Search 3 are never
    invoked; and when no tier yields any profile the result is exactly
    `{found:false, error:"..."}` with no profile field and HTTP 200. -/
theorem c3_three_tier_short_circuit
    (req : EmailSearchRequest) (upstream : SearchTier → Option RocketReachResponse)
    (hname : req.name ≠ "") (hloc : strPresent req.location = true) :
    (strPresent req.company_sic_code = true →
      ∀ (d : RocketReachResponse) (p : RRProfile) (ps : List RRProfile),
        upstream .search1 = some d → d.profiles = some (p :: ps) →
          (searchEmail req upstream).1 = [SearchTier.search1]
          ∧ (searchEmail req upstream).2.2.found = true
          ∧ (searchEmail req upstream).2.2.source = some (tierSource .search1))
    ∧ ((∀ t, tierYieldsProfile (upstream t) = false) →
        (searchEmail req upstream).2.2
            = emptyResult "No profiles found after all search attempts"
        ∧ (searchEmail req upstream).2.2.profile = none
        ∧ (searchEmail req upstream).2.1 = 200)
    ∧ (strPresent req.company_sic_code = false →
        SearchTier.search1 ∉ (searchEmail req upstream).1)
    ∧ (strPresent req.detailed_location = false →
        SearchTier.search2 ∉ (searchEmail req upstream).1)
    ∧ (strPresent req.company_sic_code = true →
        tierResult upstream .search1 ≠ none →
        (searchEmail req upstream).1 = [SearchTier.search1])
    ∧ (strPresent req.detailed_location = true →
        tierResult upstream .search2 ≠ none →
        SearchTier.search3 ∉ (searchEmail req upstream).1) := by
  refine ⟨?_, ?_, ?_, ?_, ?_, ?_⟩
  · intro hsic d p ps hs1 hp
    obtain ⟨r, hr, hfound, hsource, hprof⟩ :=
      processResults_profiles_some d (tierSource .search1) p ps hp
    have ht : tierResult upstream .search1 = some r := by
      simp [tierResult, hs1, hr]
    refine ⟨?_, ?_, ?_⟩ <;> simp [searchEmail, hname, hloc, hsic, ht, hfound, hsource]
  · intro hall
    have h1 := tierResult_none_of_noProfile upstream .search1 (hall _)
    have h2 := tierResult_none_of_noProfile upstream .search2 (hall _)
    have h3 := tierResult_none_of_noProfile upstream .search3 (hall _)
    refine ⟨?_, ?_, ?_⟩ <;>
      cases hsic : strPresent req.company_sic_code <;>
      cases hdet : strPresent req.detailed_location <;>
      simp [searchEmail, hname, hloc, hsic, hdet, h1, h2, h3, emptyResult]
  · intro hsic
    cases hdet : strPresent req.detailed_location <;>
    cases hr2 : tierResult upstream .search2 <;>
    cases hr3 : tierResult upstream .search3 <;>
      simp [searchEmail, hname, hloc, hsic, hdet, hr2, hr3]
  · intro hdet
    cases hsic : strPresent req.company_sic_code <;>
    cases hr1 : tierResult upstream .search1 <;>
    cases hr3 : tierResult upstream .search3 <;>
      simp [searchEmail, hname, hloc, hsic, hdet, hr1, hr3]
  · intro hsic h1
    cases hr1 : tierResult upstream .search1 with
    | none => exact absurd hr1 h1
    | some r => simp [searchEmail, hname, hloc, hsic, hr1]
  · intro hdet h2
    cases hr2 : tierResult upstream .search2 with
    | none => exact absurd hr2 h2
    | some r2 =>
      cases hsic : strPresent req.company_sic_code <;>
      cases hr1 : tierResult upstream .search1 <;>
        simp [searchEmail, hname, hloc, hsic, hdet, hr1, hr2]

/-- C3 witness: with all inputs present and Search 1 returning a profile
    with a revealed email, only Search 1 is invoked and the result is
    `found:true` from Search 1. -/
theorem c3_three_tier_short_circuit_witness :
    (searchEmail c3wReq c3wUpstream).1 = [SearchTier.search1]
    ∧ (searchEmail c3wReq c3wUpstream).2.2.found = true
    ∧ (searchEmail c3wReq c3wUpstream).2.2.source = some (tierSource .search1) := by
  exact (c3_three_tier_short_circuit c3wReq c3wUpstream (by decide) rfl).1
    rfl { profiles := some [emailProfile] } emailProfile [] rfl rfl

/-- C6: when the first profile the chain reaches has its contact fields
    gated behind a paid reveal (a teaser preview but no revealed email),
    the handler answers HTTP 200 with `found:true`, a placeholder email
    whose first characters are the reserved `[Hidden` marker, and the
    explanatory credits error string — not `found:false`, and not a real
    email. -/
theorem c6_gated_contact_placeholder
    (req : EmailSearchRequest) (upstream : SearchTier → Option RocketReachResponse)
    (hname : req.name ≠ "") (hloc : strPresent req.location = true)
    (hsic : strPresent req.company_sic_code = false)
    (hdet : strPresent req.detailed_location = false)
    (d : RocketReachResponse) (p : RRProfile) (ps : List RRProfile)
    (q : String) (qs : List String)
    (h3 : upstream .search3 = some d) (hp : d.profiles = some (p :: ps))
    (hnoem : allEmailsOf p = []) (hprev : previewOf p = q :: qs) :
    (searchEmail req upstream).2.1 = 200
    ∧ (searchEmail req upstream).2.2.found = true
    ∧ (searchEmail req upstream).2.2.email = some ("[Hidden - " ++ q ++ "]")
    ∧ (searchEmail req upstream).2.2.error
        = some "Email/phone requires RocketReach credits to reveal"
    ∧ ("[Hidden - " ++ q ++ "]").data.take 7 = "[Hidden".data := by
  obtain ⟨r, hr, hfound, hemail, herr, hprof⟩ :=
    processResults_gated d (tierSource .search3) p ps q qs hp hnoem hprev
  have ht3 : tierResult upstream .search3 = some r := by
    simp [tierResult, h3, hr]
  refine ⟨?_, ?_, ?_, ?_, hidden_marker_take q⟩ <;>
    simp [searchEmail, hname, hloc, hsic, hdet, ht3, hfound, hemail, herr]

/-- C6 witness: a Search 3 profile offering only a redacted preview. -/
theorem c6_gated_contact_placeholder_witness :
    (searchEmail c6Req c6Upstream).2.1 = 200
    ∧ (searchEmail c6Req c6Upstream).2.2.found = true
    ∧ (searchEmail c6Req c6Upstream).2.2.email = some ("[Hidden - " ++ "j***@acme.com" ++ "]")
    ∧ (searchEmail c6Req c6Upstream).2.2.error
        = some "Email/phone requires RocketReach credits to reveal"
    ∧ ("[Hidden - " ++ "j***@acme.com" ++ "]").data.take 7 = "[Hidden".data :=
  c6_gated_contact_placeholder c6Req c6Upstream (by decide) rfl rfl rfl
    { profiles := some [gatedProfile] } gatedProfile [] "j***@acme.com" []
    rfl rfl rfl rfl

/-- C7 counterexample: a request with a name but no location is rejected
    with HTTP 400 and `{found:false, error:"Location is required for
    search"}`; no search tier is invoked, so the search does not proceed as
    claimed. -/
theorem c7_counterexample :
    searchEmail c7Req c7Upstream = ([], 400, emptyResult "Location is required for search")
    ∧ (searchEmail c7Req c7Upstream).2.2.found = false
    ∧ c7Req.name ≠ ""
    ∧ c7Req.location = none := by
  refine ⟨rfl, rfl, by decide, rfl⟩

/-- C7 amended: the trigger requires both name and location — for every
    request whose name is present but whose location is absent (or empty,
    hence falsy), the handler rejects with HTTP 400 and
    `{found:false, error:"Location is required for search"}` and invokes no
    search tier; `company_sic_code` and `detailed_location` remain
    optional. -/
theorem c7_location_required
    (req : EmailSearchRequest) (upstream : SearchTier → Option RocketReachResponse)
    (hname : req.name ≠ "") (hloc : strPresent req.location = false) :
    searchEmail req upstream = ([], 400, emptyResult "Location is required for search") := by
  simp [searchEmail, hname, hloc]

/-- C7 witness: an empty-string location is rejected like a missing one. -/
theorem c7_location_required_witness :
    searchEmail c7wReq c7Upstream = ([], 400, emptyResult "Location is required for search") :=
  c7_location_required c7wReq c7Upstream (by decide) rfl

end DailyCompanyStream
